import Mathlib

/-!
Shallow embedding of the PythonTools dataset engine
(`src/dataset.py` and `src/builder_dataset.py`).

The embedding models the alias-mapping dataset classes `GeoDataSet` and
`DataSet` together with the geospatial frame-normalization pipeline
(`_convert_geodataframe`, `geodataframe_from_geometry`,
`geodataframe_from_coordinates`, `_finalize_frame`).

The underlying tabular frame (pandas `DataFrame` / geopandas `GeoDataFrame`)
is modelled as an ordered list of named columns plus a `crs` tag and a flag
recording whether the object is a `GeoDataFrame`.  Column renaming follows
pandas semantics (`rename({old: new}, axis=1)` relabels every matching
column; with `errors='raise'` a missing label raises `KeyError`, and the
labels are checked before any relabelling happens).  The CRS reprojection
arithmetic itself is the external geopandas collaborator (out of scope in
the spec), so `to_crs` is modelled as an update of the `crs` tag.
-/

set_option autoImplicit false

namespace PythonTools

/-- A cell of a tabular column: a number, a piece of text, or a 2-D
geometry point (the only shapes the pipeline manufactures). -/
inductive Cell where
  | num : Int → Cell
  | text : String → Cell
  | pt : Int → Int → Cell
deriving DecidableEq, Repr

/-- A pandas/geopandas frame: ordered named columns, an optional CRS
identifier, and whether the object is a `GeoDataFrame` (as opposed to a
plain `DataFrame`). -/
structure Frame where
  cols : List (String × List Cell)
  crs : Option String
  isGeo : Bool
deriving DecidableEq, Repr

/-- First-match association-list lookup (Python `dict.__getitem__` /
`dict.get`; keys of a Python dict are unique). -/
def assocLookup {α : Type} : List (String × α) → String → Option α
  | [], _ => none
  | (a, b) :: t, k => if a = k then some b else assocLookup t k

/-- Relabel every pair whose key is `old` to `new`, keeping values and
order (the column part of pandas `rename({old: new}, axis=1)`). -/
def renameCols {α : Type} (old new : String) (l : List (String × α)) : List (String × α) :=
  l.map fun c => if c.1 = old then (new, c.2) else c

namespace Frame

/-- `frame.columns`: the list of column names. -/
def names (f : Frame) : List String := f.cols.map Prod.fst

/-- `frame[name]`: the data of the first column carrying `name`.
(pandas returns a sub-frame when names are duplicated; the theorems keep
to frames whose names make the lookup unambiguous.) -/
def lookup (f : Frame) (n : String) : Option (List Cell) :=
  assocLookup f.cols n

/-- `frame.rename({old: new}, axis=1)`: relabel every column named `old`
to `new`, leaving data and order untouched. -/
def rename (f : Frame) (old new : String) : Frame :=
  { f with cols := renameCols old new f.cols }

/-- `frame.empty`: true when the frame has no rows (all columns empty) or
no columns at all. -/
def isEmpty (f : Frame) : Bool := f.cols.all fun c => c.2.isEmpty

end Frame

/-- Association-list update (`dict[k] = v`): replace the value of an
existing key in place, or append a new binding (insertion order). -/
def assocSet {α : Type} : List (String × α) → String → α → List (String × α)
  | [], k, v => [(k, v)]
  | (a, b) :: t, k, v => if a = k then (k, v) :: t else (a, b) :: assocSet t k v

/-- Association-list deletion (`del dict[k]`): drop the first binding of
the key. -/
def assocErase {α : Type} : List (String × α) → String → List (String × α)
  | [], _ => []
  | (a, b) :: t, k => if a = k then t else (a, b) :: assocErase t k

/-- A Python value as it circulates through the dataset classes: strings,
booleans, integers, 2-tuples, frames, `None`, a column extracted from a
frame (a pandas `Series`), or one of the internal bookkeeping objects
(the alias table, the side-store, ...) living in the instance
`__dict__`. -/
inductive PyVal where
  | str : String → PyVal
  | boolV : Bool → PyVal
  | intV : Int → PyVal
  | tup : PyVal → PyVal → PyVal
  | frameV : Frame → PyVal
  | colV : List Cell → PyVal
  | noneV : PyVal
  | internalV : PyVal
deriving DecidableEq, Repr

/-- The exceptions the two modules raise: the three `GeoDataSet*` classes
of `dataset.py`, plus the Python/pandas/geopandas errors that escape
(`KeyError`, `TypeError`, and collaborator `ValueError`s). -/
inductive Err where
  | keyError : Err
  | typeError : Err
  | valueError : String → Err
  | geoInfo : String → Err
  | geoFrame : String → Err
  | geoRead : String → Err
deriving DecidableEq, Repr

/-- The two non-fatal warnings `_convert_geodataframe` can emit. -/
inductive Warn where
  | geomPrecedence : Warn
  | noCrs : Warn
deriving DecidableEq, Repr

/-- `gpd.points_from_xy(xs, ys)`: build one 2-D point per row from two
coordinate columns.  (On non-numeric cells the collaborator's behaviour is
dtype-dependent; the theorems only feed it numeric columns.) -/
def pointsFromXY (xs ys : List Cell) : List Cell :=
  List.zipWith
    (fun a b =>
      match a, b with
      | Cell.num x, Cell.num y => Cell.pt x y
      | _, _ => Cell.pt 0 0)
    xs ys

/-- `GeoDataFrame(df, geometry=pts, crs=crs)`: attach `pts` as the
`geometry` column (overwriting an existing `geometry` column, else
appending one) and tag the result as a `GeoDataFrame` carrying `crs`
(falling back to the frame's own CRS when the argument is `None`). -/
def Frame.setGeometry (f : Frame) (g : List Cell) (crs : Option String) : Frame :=
  { cols :=
      if "geometry" ∈ f.names then
        f.cols.map fun c => if c.1 = "geometry" then ("geometry", g) else c
      else f.cols ++ [("geometry", g)],
    crs := match crs with
           | some c => some c
           | none => f.crs,
    isGeo := true }

/-- `frame.to_crs(crs=target)`: geopandas refuses to reproject a frame
with no CRS; otherwise the frame now carries the target CRS.  The
reprojection arithmetic itself is the external collaborator (out of
scope), so the cells are left untouched. -/
def Frame.toCrsF (f : Frame) (target : String) : Except Err Frame :=
  match f.crs with
  | some _ => Except.ok { f with crs := some target }
  | none => Except.error (Err.valueError "Cannot transform naive geometries.")

/-- Lines 38-59, `geodataframe_from_coordinates(df, z, crs, to_crs)`:
read the two coordinate columns (`KeyError` when one is absent), build
point geometry from them, and reproject when `to_crs` is given.
The 3-D branch (line 54) executes `fields += (df['coord_field3'])`, which
is not a tuple append: the parenthesised `Series` is added elementwise to
the 2-tuple, so the call never builds a third coordinate and blows up
inside the collaborator; it is modelled as the `TypeError` it produces.
No claim exercises the 3-D path. -/
def geodataframe_from_coordinates (df : Frame) (z : Bool) (crs to_crs : Option String) :
    Except Err Frame :=
  match df.lookup "coord_field1" with
  | none => Except.error Err.keyError
  | some d1 =>
    match df.lookup "coord_field2" with
    | none => Except.error Err.keyError
    | some d2 =>
      if z then Except.error Err.typeError
      else
        match to_crs with
        | some t => (df.setGeometry (pointsFromXY d1 d2) crs).toCrsF t
        | none => Except.ok (df.setGeometry (pointsFromXY d1 d2) crs)

/-- Lines 62-80, `geodataframe_from_geometry(df, crs, to_crs)`:
`GeoDataFrame(df, geometry='geometry', crs=crs)` (the geopandas
constructor fails when the frame has no `geometry` column), then, when a
target CRS is requested, demand a starting CRS (`GeoDataSetInfoError`
otherwise) and reproject. -/
def geodataframe_from_geometry (df : Frame) (crs to_crs : Option String) :
    Except Err Frame :=
  if "geometry" ∈ df.names then
    let geodf : Frame :=
      { df with
        isGeo := true,
        crs := match crs with
               | some c => some c
               | none => df.crs }
    match to_crs with
    | some t =>
      match crs with
      | some _ => geodf.toCrsF t
      | none =>
        Except.error (Err.geoInfo "A beginning crs must be given to transform to a new crs!")
    | none => Except.ok geodf
  else Except.error (Err.valueError "geometry column not present")

/-- Lines 177-183 of `_convert_geodataframe`: the three coordinate
columns are read inside one `try` block, so a `KeyError` on an earlier
column leaves every later field as the empty `Series` it was initialised
to. -/
def coordFields (f : Frame) : List Cell × List Cell × List Cell :=
  match f.lookup "coord_field1" with
  | none => ([], [], [])
  | some d1 =>
    match f.lookup "coord_field2" with
    | none => (d1, [], [])
    | some d2 =>
      match f.lookup "coord_field3" with
      | none => (d1, d2, [])
      | some d3 => (d1, d2, d3)

/-- Lines 229-236, `_finalize_frame`'s alias-repair loop: for each alias
binding whose physical target is a column of the new frame, rename that
column to the canonical name (pandas `rename` with the default
`errors='ignore'`). -/
def finalizeRename (aliases : List (String × String)) (f : Frame) : Frame :=
  aliases.foldl (fun acc kv => if kv.2 ∈ acc.names then acc.rename kv.2 kv.1 else acc) f

/-- Lines 171-227, `GeoDataSet._convert_geodataframe`, as a function of
the alias table, the `crs`/`to_crs` fields read from `self.__dict__`, and
the value held in `self._frame`.  Returns the finalized frame together
with the non-fatal warnings emitted, or the exception raised.

Shape resolution follows the source: a `GeoDataFrame` with a non-empty
`geometry` column goes through `geodataframe_from_geometry` (warning when
coordinate columns are also populated); a `GeoDataFrame` with empty
geometry but populated coordinates hits the `if geometry_field is not
None` guard, which is always true (the field is a `Series`), and raises;
any other `GeoDataFrame` passes through untouched; a plain `DataFrame`
tries `geodataframe_from_coordinates` first and only falls back to
`geodataframe_from_geometry` on `KeyError`; a non-frame raises
`GeoDataSetFrameError`.  Afterwards: empty result raises, a missing CRS
warns, and a requested `to_crs` reprojects only when a CRS is present. -/
def convertGeodataframe (aliases : List (String × String)) (crs to_crs : Option String)
    (value : PyVal) : Except Err (Frame × List Warn) :=
  match value with
  | PyVal.frameV f =>
    let cf := coordFields f
    let geom : List Cell := (f.lookup "geometry").getD []
    let step1 : Except Err (Frame × List Warn) :=
      if f.isGeo then
        if !geom.isEmpty then
          let w := if !cf.1.isEmpty || !cf.2.1.isEmpty || !cf.2.2.isEmpty
                   then [Warn.geomPrecedence] else []
          match geodataframe_from_geometry f crs none with
          | Except.ok g => Except.ok (g, w)
          | Except.error e => Except.error e
        else if (!cf.1.isEmpty && !cf.2.1.isEmpty)
                || (!cf.1.isEmpty && !cf.2.1.isEmpty && !cf.2.2.isEmpty) then
          Except.error (Err.geoInfo
            "Geometry field should not be passed along with longitude and latitude fields.")
        else Except.ok (f, [])
      else
        match geodataframe_from_coordinates f (!cf.2.2.isEmpty) crs none with
        | Except.ok g => Except.ok (g, [])
        | Except.error Err.keyError =>
          match geodataframe_from_geometry f crs none with
          | Except.ok g => Except.ok (g, [])
          | Except.error e => Except.error e
        | Except.error e => Except.error e
    match step1 with
    | Except.error e => Except.error e
    | Except.ok (v, w1) =>
      if v.isEmpty then Except.error (Err.geoInfo "The frame can not be empty!")
      else
        match v.crs with
        | none => Except.ok (finalizeRename aliases v, w1 ++ [Warn.noCrs])
        | some _ =>
          match to_crs with
          | some t =>
            match v.toCrsF t with
            | Except.ok r => Except.ok (finalizeRename aliases r, w1)
            | Except.error e => Except.error e
          | none => Except.ok (finalizeRename aliases v, w1)
  | _ => Except.error (Err.geoFrame "Your frame must be a valid GeoDataFrame!")

/-- The observable state of a `GeoDataSet` instance (`dataset.py`):
`_aliases`, `_persistent_fields`, `_store`, `_frame`, and the
non-bookkeeping entries of the instance `__dict__` (every side-stored
field is written both to `_store` and to `__dict__`, lines 320-324).
The four bookkeeping slots `_aliases`, `_persistent_fields`, `_store`
and `_frame` always live in `__dict__` as well (they are set through
`super().__setattr__` in `__init__`), which matters for `isvalid`. -/
structure GDS where
  aliases : List (String × String)
  persistent : List String
  store : List (String × PyVal)
  extras : List (String × PyVal)
  frame : Frame
deriving DecidableEq, Repr

/-- The four keys `__init__` plants in the instance `__dict__`. -/
def bookkeepingKeys : List String := ["_aliases", "_persistent_fields", "_store", "_frame"]

namespace GDS

/-- `self.__dict__.get('crs', None)` (line 192), read as a CRS
identifier.  A non-string value stored under `crs` would be handed to
geopandas as-is; the model only tracks string identifiers (anything else
behaves like the falsy `None` default). -/
def crsArg (s : GDS) : Option String :=
  match assocLookup s.extras "crs" with
  | some (PyVal.str c) => some c
  | _ => none

/-- `self.__dict__.get('to_crs', None)` (line 193), read as a CRS
identifier, as for `crsArg`. -/
def toCrsArg (s : GDS) : Option String :=
  match assocLookup s.extras "to_crs" with
  | some (PyVal.str c) => some c
  | _ => none

/-- The side-store fallback of `__setitem__` (lines 320-321 and 323-324):
`self._store[key] = value; self.__dict__[key] = value`. -/
def sideStore (s : GDS) (key : String) (value : PyVal) : GDS :=
  { s with store := assocSet s.store key value, extras := assocSet s.extras key value }

/-- Lines 300-324, `GeoDataSet.__setitem__`.  The guard on line 303 is
`value in self._frame.columns`: it is true only for a string naming a
column (an unhashable value such as a frame raises `TypeError`, caught on
line 322; any other hashable value is simply not a member of the string
index).  Consequently the `isinstance(value, tuple)` block (lines
305-312) is unreachable — inside the guard `value` is a string — and a
tuple value always takes the side-store path.  When `key` itself names a
column, line 315 first renames it back to `self._aliases[key]`
(`errors='ignore'`); a `key` that names a column but has no alias entry
raises an uncaught `KeyError`.  Line 317 then renames `value` to `key`
with `errors='raise'`; when that label check fails the restore rename has
already mutated `_frame`.  Returns the resulting state paired with the
exception raised, if any. -/
def setitem (s : GDS) (key : String) (value : PyVal) : GDS × Option Err :=
  match value with
  | PyVal.str v =>
    if v ∈ s.frame.names then
      if key ∈ s.frame.names then
        match assocLookup s.aliases key with
        | none => (s, some Err.keyError)
        | some prior =>
          if v ∈ (s.frame.rename key prior).names then
            ({ s with frame := (s.frame.rename key prior).rename v key,
                      aliases := assocSet s.aliases key v }, none)
          else
            ({ s with frame := s.frame.rename key prior }, some Err.keyError)
      else
        ({ s with frame := s.frame.rename v key, aliases := assocSet s.aliases key v }, none)
    else (s.sideStore key value, none)
  | _ => (s.sideStore key value, none)

/-- Lines 292-298, `GeoDataSet.__getitem__`: the literal key `'frame'`
returns the frame (the property hands back a copy; copying is the
identity in a pure model); otherwise try the frame's columns; on
`KeyError` fall back to the instance `__dict__` (bookkeeping slots hold
the internal tables). -/
def getitem (s : GDS) (item : String) : Except Err PyVal :=
  if item = "frame" then Except.ok (PyVal.frameV s.frame)
  else
    match s.frame.lookup item with
    | some d => Except.ok (PyVal.colV d)
    | none =>
      if item ∈ bookkeepingKeys then Except.ok PyVal.internalV
      else
        match assocLookup s.extras item with
        | some v => Except.ok v
        | none => Except.error Err.keyError

/-- Lines 326-327, `GeoDataSet.__delitem__`: `del self._store[key]`
(a `KeyError` when the key is absent); the `__dict__` copy of the value
is left in place. -/
def delitem (s : GDS) (key : String) : GDS × Option Err :=
  if key ∈ s.store.map Prod.fst then ({ s with store := assocErase s.store key }, none)
  else (s, some Err.keyError)

/-- Lines 329-330, `GeoDataSet.__len__`: the size of `_store`. -/
def lenStore (s : GDS) : Nat := s.store.length

/-- Lines 332-334, `GeoDataSet.__iter__`: yields the `(key, value)`
pairs of `_store`. -/
def iterStore (s : GDS) : List (String × PyVal) := s.store

/-- Lines 339-340, `GeoDataSet.__contains__`: membership in `_store`. -/
def containsStore (s : GDS) (key : String) : Bool :=
  s.store.any fun e => e.1 = key

/-- Lines 238-249, `GeoDataSet.isvalid`: false when the frame is `None`
or empty (a `None` frame is unrepresentable here — the property access
would not even return); then `if not bool(self.__dict__): return False`,
where `__dict__` holds at least the four bookkeeping slots plus the
side-stored fields; else true. -/
def isvalid (s : GDS) : Bool :=
  if s.frame.isEmpty then false
  else if (bookkeepingKeys ++ s.extras.map Prod.fst).isEmpty then false
  else true

/-- Lines 229-236, `_finalize_frame(value)`: repair the aliases on the
converted frame, then `self._frame = value; self._store['frame'] =
self._frame`.  `convertGeodataframe` already applies `finalizeRename`,
so this records its result in the state. -/
def finalizeInto (s : GDS) (g : Frame) : GDS :=
  { s with frame := g, store := assocSet s.store "frame" (PyVal.frameV g) }

end GDS

/-- Line 280's error text, naming the missing persistent field. -/
def persistentMsg (col : String) : String :=
  "A persistent column must stay constant when setting to a new frame. The new frame does not have the persistent field " ++ col ++ "."

/-- Lines 278-281 of the frame setter: the first persistent field whose
alias target and own name are both missing from `checkNames` produces the
`GeoDataSetInfoError` naming it; a persistent field absent from
`_aliases` raises `KeyError` (`self._aliases[col]`). -/
def persistentViolation (pf : List String) (al : List (String × String)) (checkNames : List String) :
    Option Err :=
  match pf with
  | [] => none
  | col :: rest =>
    match assocLookup al col with
    | none => some Err.keyError
    | some a =>
      if a ∉ checkNames ∧ col ∉ checkNames then some (Err.geoInfo (persistentMsg col))
      else persistentViolation rest al checkNames

/-- The `_convert_geodataframe` branch in which the converted value *is*
the caller's frame object (a `GeoDataFrame` with empty geometry and
insufficient coordinates, lines 195-208 falling through): every later
in-place mutation then also shows on the object the setter's persistent
check reads. -/
def passThrough (f : Frame) : Bool :=
  let cf := coordFields f
  f.isGeo && ((f.lookup "geometry").getD []).isEmpty && (cf.1.isEmpty || cf.2.1.isEmpty)

/-- Lines 262-281, the `frame` setter.  `read_geodataframe` turns a
`None` into `GeoDataSetFrameError` and a string into a file-system load
(the loader collaborator is out of scope; a path input is recorded as a
read attempt); any other value raises the caught `GeoDataSetInfoError`
and is assigned to `self._frame` directly.  `_convert_geodataframe` runs
*before* the persistent-field check, so when that check fails the dataset
is already holding (and side-storing) the new frame.  The check reads
`value.columns`, i.e. the caller's object: for the pass-through branch
that object has been finalized in place, otherwise it keeps its raw
names. -/
def gdsFrameSet (s : GDS) (value : PyVal) : GDS × Option Err :=
  match value with
  | PyVal.noneV => (s, some (Err.geoFrame "You can not set frame to none!"))
  | PyVal.str _ => (s, some (Err.geoRead "file loading is performed by the external loader"))
  | PyVal.frameV f =>
    match convertGeodataframe s.aliases s.crsArg s.toCrsArg (PyVal.frameV f) with
    | Except.error e => ({ s with frame := f }, some e)
    | Except.ok (g, _w) =>
      match persistentViolation s.persistent s.aliases
              (if passThrough f then g.names else f.names) with
      | some e => (s.finalizeInto g, some e)
      | none => (s.finalizeInto g, none)
  | _ => (s, some (Err.geoFrame "Your frame must be a valid GeoDataFrame!"))

/-- Lines 161-169 (`_convert_fields`) followed by line 159: run every
keyword field through `__setitem__` (an exception aborts construction),
then `_convert_geodataframe` once. -/
def gdsInitRest (s : GDS) : List (String × PyVal) → Except Err GDS
  | [] =>
    match convertGeodataframe s.aliases s.crsArg s.toCrsArg (PyVal.frameV s.frame) with
    | Except.error e => Except.error e
    | Except.ok (g, _w) => Except.ok (s.finalizeInto g)
  | (k, v) :: rest =>
    match s.setitem k v with
    | (s', none) => gdsInitRest s' rest
    | (_, some e) => Except.error e

/-- Lines 135-159, `GeoDataSet.__init__`.  The alias table starts as
`{'geometry': 'geometry'}`, the persistent list as `['geometry']`.  A
`None` frame raises out of `read_geodataframe`; a string is a loader
call (out of scope); a non-frame value is caught as "not a filepath",
assigned to `_frame`, and later rejected by `_convert_geodataframe`.
When a non-empty `fields` mapping is passed, line 154 evaluates
`fields.copy().update(kwargs)` — `dict.update` returns `None` — and line
155's `self._convert_fields(**fields)` then raises `TypeError`; an empty
mapping is falsy and takes the kwargs-only path. -/
def gdsInit (frame : PyVal) (fields : Option (List (String × PyVal)))
    (kwargs : List (String × PyVal)) : Except Err GDS :=
  match frame with
  | PyVal.noneV => Except.error (Err.geoFrame "You can not set frame to none!")
  | PyVal.str _ => Except.error (Err.geoRead "file loading is performed by the external loader")
  | PyVal.frameV f =>
    let s0 : GDS :=
      { aliases := [("geometry", "geometry")], persistent := ["geometry"],
        store := [], extras := [], frame := f }
    match fields with
    | some l => if l.isEmpty then gdsInitRest s0 kwargs else Except.error Err.typeError
    | none => gdsInitRest s0 kwargs
  | _ => Except.error (Err.geoFrame "Your frame must be a valid GeoDataFrame!")

/-- The observable state of a `builder_dataset.DataSet` instance.
Because `__setattr__` routes every attribute assignment through
`__setitem__`, `__init__` leaves the instance `__dict__` holding exactly
the two bookkeeping slots `_store` and `_aliases` (lines 43-45), while
the frame ends up in `_store['frame']` (line 47) — the attribute `frame`
is never an entry of `__dict__`.  `dict` models any further
non-bookkeeping `__dict__` entries (none arise through the public
interface). -/
structure DS where
  store : List (String × PyVal)
  aliases : List (String × String)
  dict : List (String × PyVal)
deriving DecidableEq, Repr

namespace DS

/-- `self.frame` as `__setitem__` reaches it: normal attribute lookup
fails (`frame` is not in `__dict__`), `__getattr__` calls
`__getitem__('frame')`, which finds `_store['frame']`.  `none` when the
slot is absent or holds a non-frame (e.g. the default `frame=None`),
in which case the subsequent `rename` raises an error the `except`
clause catches. -/
def frameOpt (s : DS) : Option Frame :=
  match assocLookup s.store "frame" with
  | some (PyVal.frameV f) => some f
  | _ => none

/-- Lines 37-47, `DataSet.__setitem__`.  When `key` is aliased, the
current column `key` is first renamed back to `self._aliases[key]` with
`errors='raise'`; then `value` is renamed to `key` with `errors='raise'`
and the alias recorded.  Any `TypeError`/`AttributeError`/`KeyError`
along the way (missing frame, non-string or unknown `value` label,
missing `key` label during the restore) falls back to plain storage:
into `__dict__` for the two bookkeeping keys, into `_store` otherwise.
A failure of the *second* rename happens after the restore rename has
already mutated the stored frame in place. -/
def setitem (s : DS) (key : String) (value : PyVal) : DS :=
  let fallback : DS → DS := fun s' =>
    if key = "_aliases" ∨ key = "_store" then { s' with dict := assocSet s'.dict key value }
    else { s' with store := assocSet s'.store key value }
  match s.frameOpt with
  | none => fallback s
  | some f =>
    let restored : Option Frame :=
      if key ∈ s.aliases.map Prod.fst then
        match assocLookup s.aliases key with
        | some prior => if key ∈ f.names then some (f.rename key prior) else none
        | none => none
      else some f
    match restored with
    | none => fallback s
    | some f1 =>
      let s1 : DS := { s with store := assocSet s.store "frame" (PyVal.frameV f1) }
      match value with
      | PyVal.str v =>
        if v ∈ f1.names then
          { s1 with
            store := assocSet s1.store "frame" (PyVal.frameV (f1.rename v key)),
            aliases := assocSet s.aliases key v }
        else fallback s1
      | _ => fallback s1

/-- Lines 28-35, `DataSet.__getitem__`: instance `__dict__` first (only
the two bookkeeping tables live there), then `_store` (which includes
the frame under the key `'frame'`), and finally `self.__dict__['frame']`
— an entry that never exists, so the last fallback always raises
`KeyError`: a rebound column is *not* reachable through lookup. -/
def getitem (s : DS) (key : String) : Except Err PyVal :=
  if key = "_aliases" ∨ key = "_store" then Except.ok PyVal.internalV
  else
    match assocLookup s.dict key with
    | some v => Except.ok v
    | none =>
      match assocLookup s.store key with
      | some v => Except.ok v
      | none => Except.error Err.keyError

end DS

/-- Lines 14-20, `DataSet.__init__` with a frame and keyword fields: the
bootstrap assignments leave `_store = {'frame': frame}`, `__dict__ =
{'_store', '_aliases'}`, `_aliases = {}`, after which each keyword pair
goes through `__setitem__`. -/
def dsInit (frame : PyVal) (kwargs : List (String × PyVal)) : DS :=
  kwargs.foldl (fun s kv => s.setitem kv.1 kv.2)
    { store := [("frame", frame)], aliases := [], dict := [] }

/-! Concrete fixtures used by the counterexamples and witnesses below. -/

/-- A small valid geo frame: a geometry column and a `price` column. -/
def sampleFrame : Frame :=
  { cols := [("geometry", [Cell.pt 0 0]), ("price", [Cell.num 3])],
    crs := some "EPSG:4326", isGeo := true }

/-- The `GeoDataSet` state produced by `GeoDataSet(sampleFrame)`. -/
def sampleGDS : GDS :=
  { aliases := [("geometry", "geometry")], persistent := ["geometry"],
    store := [("frame", PyVal.frameV sampleFrame)], extras := [], frame := sampleFrame }

/-- A dataset whose `value_field` is persistently aliased to the physical
column `price` (the frame already exposes the canonical name). -/
def persistGDS : GDS :=
  { aliases := [("geometry", "geometry"), ("value_field", "price")],
    persistent := ["geometry", "value_field"],
    store := [("frame", PyVal.frameV
      { cols := [("geometry", [Cell.pt 0 0]), ("value_field", [Cell.num 1])],
        crs := some "EPSG:4326", isGeo := true })],
    extras := [],
    frame := { cols := [("geometry", [Cell.pt 0 0]), ("value_field", [Cell.num 1])],
               crs := some "EPSG:4326", isGeo := true } }

/-- A replacement frame carrying geometry but neither `price` nor
`value_field`. -/
def replacementFrame : Frame :=
  { cols := [("geometry", [Cell.pt 1 1]), ("other", [Cell.num 2])],
    crs := some "EPSG:4326", isGeo := true }

/-- A plain `DataFrame` populating both coordinate columns *and* a
geometry column. -/
def dfBothSignals : Frame :=
  { cols := [("coord_field1", [Cell.num 1]), ("coord_field2", [Cell.num 2]),
             ("geometry", [Cell.pt 9 9])],
    crs := none, isGeo := false }

/-- A `GeoDataFrame` with neither a geometry column nor coordinate
columns (only a `price` column). -/
def geoNoSignals : Frame :=
  { cols := [("price", [Cell.num 5])], crs := some "EPSG:4326", isGeo := true }

/-- A geometry-column `GeoDataFrame` carrying no CRS. -/
def geoNoCrs : Frame :=
  { cols := [("geometry", [Cell.pt 0 0])], crs := none, isGeo := true }

/-- A plain two-coordinate `DataFrame`. -/
def dfCoords : Frame :=
  { cols := [("coord_field1", [Cell.num 1]), ("coord_field2", [Cell.num 2])],
    crs := none, isGeo := false }

/-- A frame for the builder `DataSet` whose `value_field` column has been
replaced away (only an `other` column remains). -/
def dsLostFrame : Frame :=
  { cols := [("other", [Cell.num 7])], crs := none, isGeo := false }

/-- A builder `DataSet` state in which `value_field` is recorded as an
alias of `price` but the frame no longer exposes a `value_field`
column. -/
def dsLost : DS :=
  { store := [("frame", PyVal.frameV dsLostFrame)],
    aliases := [("value_field", "price")], dict := [] }

/-- A `GeoDataFrame` populating both a geometry column and the two
coordinate columns. -/
def geoBothSignals : Frame :=
  { cols := [("coord_field1", [Cell.num 1]), ("coord_field2", [Cell.num 2]),
             ("geometry", [Cell.pt 9 9])],
    crs := some "EPSG:4326", isGeo := true }

/-- A dataset holding one side-stored field `note` (present in both
`_store` and the instance `__dict__`, as `__setitem__` leaves it). -/
def notedGDS : GDS :=
  { aliases := [("geometry", "geometry")], persistent := ["geometry"],
    store := [("frame", PyVal.frameV sampleFrame), ("note", PyVal.str "hello")],
    extras := [("note", PyVal.str "hello")], frame := sampleFrame }

/-! Helper lemmas about the association-list and frame primitives. -/

theorem assocLookup_mem {α : Type} {l : List (String × α)} {k : String} {v : α}
    (h : assocLookup l k = some v) : (k, v) ∈ l := by
  induction l with
  | nil => simp [assocLookup] at h
  | cons hd t ih =>
    obtain ⟨a, b⟩ := hd
    by_cases hc : a = k
    · subst hc
      simp [assocLookup] at h
      simp [h]
    · simp only [assocLookup, if_neg hc] at h
      exact List.mem_cons_of_mem _ (ih h)

theorem mem_keys_of_assocLookup {α : Type} {l : List (String × α)} {k : String} {v : α}
    (h : assocLookup l k = some v) : k ∈ l.map Prod.fst :=
  List.mem_map.2 ⟨(k, v), assocLookup_mem h, rfl⟩

theorem assocLookup_isSome_of_mem_keys {α : Type} {l : List (String × α)} {k : String}
    (h : k ∈ l.map Prod.fst) : ∃ v, assocLookup l k = some v := by
  induction l with
  | nil => simp at h
  | cons hd t ih =>
    obtain ⟨a, b⟩ := hd
    by_cases hc : a = k
    · exact ⟨b, by simp [assocLookup, hc]⟩
    · have ht : k ∈ t.map Prod.fst := by
        simp only [List.map_cons, List.mem_cons] at h
        rcases h with h1 | h1
        · exact absurd h1.symm hc
        · exact h1
      rcases ih ht with ⟨v, hv⟩
      exact ⟨v, by simp [assocLookup, hc, hv]⟩

theorem map_snd_renameCols {α : Type} (o n : String) (l : List (String × α)) :
    (renameCols o n l).map Prod.snd = l.map Prod.snd := by
  unfold renameCols
  rw [List.map_map]
  apply List.map_congr_left
  intro c _
  by_cases hc : c.1 = o <;> simp [hc]

theorem mem_keys_renameCols_of_ne {α : Type} {l : List (String × α)} {x o : String}
    (n : String) (hx : x ∈ l.map Prod.fst) (hxo : x ≠ o) :
    x ∈ (renameCols o n l).map Prod.fst := by
  induction l with
  | nil => simp at hx
  | cons hd t ih =>
    obtain ⟨a, b⟩ := hd
    simp only [List.map_cons, List.mem_cons] at hx
    rcases hx with h1 | h1
    · subst h1
      simp [renameCols, if_neg hxo]
    · by_cases hc : a = o
      · subst hc
        simp only [renameCols, List.map_cons] at ih ⊢
        simp only [List.mem_cons]
        exact Or.inr (by simpa [renameCols] using ih h1)
      · simp only [renameCols, List.map_cons] at ih ⊢
        simp only [List.mem_cons]
        exact Or.inr (by simpa [renameCols] using ih h1)

theorem not_mem_keys_renameCols {α : Type} {o n : String} (h : o ≠ n)
    (l : List (String × α)) : o ∉ (renameCols o n l).map Prod.fst := by
  induction l with
  | nil => simp [renameCols]
  | cons hd t ih =>
    obtain ⟨a, b⟩ := hd
    by_cases hc : a = o
    · simpa [renameCols, hc, h, Ne.symm h] using ih
    · simpa [renameCols, hc, Ne.symm hc] using ih

theorem assocLookup_renameCols {α : Type} {l : List (String × α)} {o n : String}
    (h : n ∉ l.map Prod.fst) : assocLookup (renameCols o n l) n = assocLookup l o := by
  induction l with
  | nil => rfl
  | cons hd t ih =>
    obtain ⟨a, b⟩ := hd
    have hna : a ≠ n := by
      intro hx
      exact h (by simp [hx])
    have ht : n ∉ t.map Prod.fst := fun hx => h (by simp [hx])
    rw [show renameCols o n ((a, b) :: t)
          = (if a = o then (n, b) else (a, b)) :: renameCols o n t from rfl]
    by_cases hc : a = o
    · subst hc
      rw [if_pos rfl]
      simp [assocLookup]
    · rw [if_neg hc]
      simp [assocLookup, hc, hna, ih ht]

theorem renameCols_self {α : Type} (o : String) (l : List (String × α)) :
    renameCols o o l = l := by
  unfold renameCols
  have hcong : ∀ c ∈ l, (if c.1 = o then (o, c.2) else c) = c := by
    intro c _
    by_cases hc : c.1 = o
    · rw [if_pos hc, ← hc]
    · rw [if_neg hc]
  rw [List.map_congr_left hcong]
  simp

theorem length_assocErase {α : Type} {l : List (String × α)} {k : String}
    (h : k ∈ l.map Prod.fst) : (assocErase l k).length + 1 = l.length := by
  induction l with
  | nil => simp at h
  | cons hd t ih =>
    obtain ⟨a, b⟩ := hd
    by_cases hc : a = k
    · simp [assocErase, hc]
    · have ht : k ∈ t.map Prod.fst := by
        simp only [List.map_cons, List.mem_cons] at h
        rcases h with h1 | h1
        · exact absurd h1.symm hc
        · exact h1
      simp [assocErase, hc, ih ht]

theorem not_mem_keys_assocErase {α : Type} {l : List (String × α)} {k : String}
    (hnd : (l.map Prod.fst).Nodup) : k ∉ (assocErase l k).map Prod.fst := by
  induction l with
  | nil => simp [assocErase]
  | cons hd t ih =>
    obtain ⟨a, b⟩ := hd
    rw [List.map_cons, List.nodup_cons] at hnd
    by_cases hc : a = k
    · subst hc
      simpa [assocErase] using hnd.1
    · simpa [assocErase, hc, Ne.symm hc] using ih hnd.2

namespace Frame

theorem crs_rename (f : Frame) (o n : String) : (f.rename o n).crs = f.crs := rfl

theorem map_snd_rename (f : Frame) (o n : String) :
    (f.rename o n).cols.map Prod.snd = f.cols.map Prod.snd :=
  map_snd_renameCols o n f.cols

theorem mem_names_rename_of_ne {f : Frame} {x o : String} (n : String)
    (hx : x ∈ f.names) (hxo : x ≠ o) : x ∈ (f.rename o n).names :=
  mem_keys_renameCols_of_ne n hx hxo

theorem not_mem_names_rename {f : Frame} {o n : String} (h : o ≠ n) :
    o ∉ (f.rename o n).names :=
  not_mem_keys_renameCols h f.cols

theorem lookup_rename {f : Frame} {o n : String} (h : n ∉ f.names) :
    (f.rename o n).lookup n = f.lookup o :=
  assocLookup_renameCols h

theorem rename_self (f : Frame) (o : String) : f.rename o o = f := by
  cases f
  simp [rename, renameCols_self]

theorem mem_names_of_lookup {f : Frame} {n : String} {d : List Cell}
    (h : f.lookup n = some d) : n ∈ f.names :=
  mem_keys_of_assocLookup h

theorem isEmpty_false_of_lookup {f : Frame} {n : String} {d : List Cell}
    (h : f.lookup n = some d) (hd : d ≠ []) : f.isEmpty = false := by
  have hm : (n, d) ∈ f.cols := assocLookup_mem h
  unfold isEmpty
  rw [List.all_eq_false]
  exact ⟨(n, d), hm, by simpa using hd⟩

end Frame

theorem map_snd_finalizeRename (al : List (String × String)) (f : Frame) :
    (finalizeRename al f).cols.map Prod.snd = f.cols.map Prod.snd := by
  induction al generalizing f with
  | nil => rfl
  | cons kv t ih =>
    show (finalizeRename t _).cols.map Prod.snd = _
    by_cases hc : kv.2 ∈ f.names
    · simp only [hc, if_true]
      rw [ih, Frame.map_snd_rename]
    · simp only [hc, if_false]
      exact ih f

theorem crs_finalizeRename (al : List (String × String)) (f : Frame) :
    (finalizeRename al f).crs = f.crs := by
  induction al generalizing f with
  | nil => rfl
  | cons kv t ih =>
    show (finalizeRename t _).crs = _
    by_cases hc : kv.2 ∈ f.names
    · simp only [hc, if_true]
      rw [ih, Frame.crs_rename]
    · simp only [hc, if_false]
      exact ih f

theorem persistentViolation_names {pf : List String} {al : List (String × String)}
    {ns : List String} {e : Err} (h : persistentViolation pf al ns = some e)
    (he : e ≠ Err.keyError) :
    ∃ col, col ∈ pf ∧ col ∉ ns ∧ e = Err.geoInfo (persistentMsg col) := by
  induction pf with
  | nil => simp [persistentViolation] at h
  | cons col rest ih =>
    simp only [persistentViolation] at h
    cases hal : assocLookup al col with
    | none =>
      rw [hal] at h
      simp at h
      exact absurd h.symm he
    | some a =>
      simp only [hal] at h
      by_cases hc : a ∉ ns ∧ col ∉ ns
      · rw [if_pos hc] at h
        simp at h
        exact ⟨col, List.mem_cons_self col rest, hc.2, h.symm⟩
      · rw [if_neg hc] at h
        rcases ih h with ⟨c, hc1, hc2, hc3⟩
        exact ⟨c, List.mem_cons_of_mem col hc1, hc2, hc3⟩

theorem any_fst_eq_false_of_not_mem {α : Type} {l : List (String × α)} {k : String}
    (h : k ∉ l.map Prod.fst) : (l.any fun e => e.1 = k) = false := by
  induction l with
  | nil => rfl
  | cons hd t ih =>
    obtain ⟨a, b⟩ := hd
    have ha : ¬a = k := fun hx => h (by simp [hx])
    have ht : k ∉ t.map Prod.fst := fun hx => h (by simp [hx])
    simp [ha, ih ht]

/-! Claim C1. -/

/-- C1 (counterexample).  The claim quantifies over *every* canonical
name `k` and column name `v`; at `k = v = "geometry"` the assignment
`ds['geometry'] = 'geometry'` succeeds (the alias table maps `geometry`
to itself, so both renames are identities), yet `"geometry"` — the
value `v` — is still a directly addressable column name afterwards,
contradicting the claim's "v is no longer a directly addressable column
name". -/
theorem c1_counterexample :
    (sampleGDS.setitem "geometry" (PyVal.str "geometry")).2 = none
    ∧ GDS.getitem (sampleGDS.setitem "geometry" (PyVal.str "geometry")).1 "geometry"
        = Except.ok (PyVal.colV [Cell.pt 0 0])
    ∧ "geometry" ∈ ((sampleGDS.setitem "geometry" (PyVal.str "geometry")).1).frame.names :=
  ⟨rfl, rfl, by decide⟩

/-- C1 (amended): for a canonical name `k` that is distinct from `v` and
does not itself currently name a column of the owned frame, a successful
`GeoDataSet.__setitem__(k, v)` with `v` naming an existing column renames
`v` to `k` and records the alias, so that `__getitem__(k)` returns the
column previously named `v` and `v` is no longer a column name of the
frame. -/
theorem c1_rebind_roundtrip (s : GDS) (k v : String)
    (hv : v ∈ s.frame.names) (hk : k ∉ s.frame.names) (hf : k ≠ "frame") :
    ∃ d, s.frame.lookup v = some d
      ∧ s.setitem k (PyVal.str v)
          = ({ s with frame := s.frame.rename v k, aliases := assocSet s.aliases k v }, none)
      ∧ GDS.getitem (s.setitem k (PyVal.str v)).1 k = Except.ok (PyVal.colV d)
      ∧ v ∉ (s.setitem k (PyVal.str v)).1.frame.names := by
  have hkv : k ≠ v := fun h => hk (h ▸ hv)
  obtain ⟨d, hd⟩ := assocLookup_isSome_of_mem_keys hv
  have hset : s.setitem k (PyVal.str v)
      = ({ s with frame := s.frame.rename v k, aliases := assocSet s.aliases k v }, none) := by
    simp only [GDS.setitem]
    rw [if_pos hv, if_neg hk]
  refine ⟨d, hd, hset, ?_, ?_⟩
  · rw [hset]
    unfold GDS.getitem
    rw [if_neg hf]
    have hlk : (s.frame.rename v k).lookup k = some d := by
      rw [Frame.lookup_rename hk]
      exact hd
    show (match (s.frame.rename v k).lookup k with
          | some d => Except.ok (PyVal.colV d)
          | none =>
            if k ∈ bookkeepingKeys then Except.ok PyVal.internalV
            else
              match assocLookup s.extras k with
              | some v => Except.ok v
              | none => Except.error Err.keyError) = Except.ok (PyVal.colV d)
    rw [hlk]
  · rw [hset]
    exact Frame.not_mem_names_rename (Ne.symm hkv)

/-- C1 (witness): the amended theorem applied to `sampleGDS`, rebinding
`value_field` to the physical column `price`. -/
theorem c1_rebind_roundtrip_witness :
    ∃ d, sampleGDS.frame.lookup "price" = some d
      ∧ sampleGDS.setitem "value_field" (PyVal.str "price")
          = ({ sampleGDS with
                frame := sampleGDS.frame.rename "price" "value_field",
                aliases := assocSet sampleGDS.aliases "value_field" "price" }, none)
      ∧ GDS.getitem (sampleGDS.setitem "value_field" (PyVal.str "price")).1 "value_field"
          = Except.ok (PyVal.colV d)
      ∧ "price" ∉ (sampleGDS.setitem "value_field" (PyVal.str "price")).1.frame.names :=
  c1_rebind_roundtrip sampleGDS "value_field" "price" (by decide) (by decide) (by decide)

/-! Claim C2. -/

/-- C2 (counterexample).  In the builder `DataSet` (the
`builder_dataset.py` lines the claim cites), a restore failure is *not*
ignored: with `value_field` bound to `price` but the frame no longer
exposing a `value_field` column, assigning `value_field` the existing
column `other` raises `KeyError` inside the restore rename
(`errors='raise'`), which the `except` clause turns into a side-store of
the string `"other"` — the frame is not touched (no `v2 → k` rename
happens) and the alias still maps `value_field` to `price`. -/
theorem c2_counterexample :
    (dsLost.setitem "value_field" (PyVal.str "other")).frameOpt = some dsLostFrame
    ∧ (dsLost.setitem "value_field" (PyVal.str "other")).aliases = [("value_field", "price")]
    ∧ assocLookup (dsLost.setitem "value_field" (PyVal.str "other")).store "value_field"
        = some (PyVal.str "other") :=
  ⟨rfl, rfl, rfl⟩

/-- C2 (amended): in `GeoDataSet.__setitem__`, rebinding a canonical
name `k` (bound to `v` in the alias map) to another existing column `v2`
first restores the column currently exposed as `k` to `v` and only then
renames `v2` to `k`; when the frame does not expose a column named `k`
the restore is skipped and the rebinding still proceeds (best-effort);
either way the assignment succeeds, records `aliases[k] = v2`, and the
column data multiset is preserved (no orphaned columns).  In the plain
`DataSet` the restore failure instead aborts the rebinding (see the
counterexample). -/
theorem c2_rebind_restore_order (s : GDS) (k v v2 : String)
    (h1 : assocLookup s.aliases k = some v)
    (h2 : v2 ∈ s.frame.names)
    (h3 : v2 ≠ k) :
    (k ∈ s.frame.names →
       s.setitem k (PyVal.str v2)
         = ({ s with
                frame := (s.frame.rename k v).rename v2 k,
                aliases := assocSet s.aliases k v2 }, none))
    ∧ (k ∉ s.frame.names →
       s.setitem k (PyVal.str v2)
         = ({ s with
                frame := s.frame.rename v2 k,
                aliases := assocSet s.aliases k v2 }, none))
    ∧ (s.setitem k (PyVal.str v2)).1.frame.cols.map Prod.snd = s.frame.cols.map Prod.snd := by
  have hin : k ∈ s.frame.names →
      s.setitem k (PyVal.str v2)
        = ({ s with
               frame := (s.frame.rename k v).rename v2 k,
               aliases := assocSet s.aliases k v2 }, none) := by
    intro hk
    simp only [GDS.setitem]
    rw [if_pos h2, if_pos hk, h1]
    show (if v2 ∈ (s.frame.rename k v).names then _ else _) = _
    rw [if_pos (Frame.mem_names_rename_of_ne v h2 h3)]
  have hout : k ∉ s.frame.names →
      s.setitem k (PyVal.str v2)
        = ({ s with
               frame := s.frame.rename v2 k,
               aliases := assocSet s.aliases k v2 }, none) := by
    intro hk
    simp only [GDS.setitem]
    rw [if_pos h2, if_neg hk]
  refine ⟨hin, hout, ?_⟩
  by_cases hk : k ∈ s.frame.names
  · rw [hin hk]
    show ((s.frame.rename k v).rename v2 k).cols.map Prod.snd = _
    rw [Frame.map_snd_rename, Frame.map_snd_rename]
  · rw [hout hk]
    exact Frame.map_snd_rename s.frame v2 k

/-- C2 (witness): the amended theorem applied to `persistGDS`, rebinding
`value_field` (currently exposed as a column and aliased to `price`) to
the existing `geometry` column. -/
theorem c2_rebind_restore_order_witness :
    ("value_field" ∈ persistGDS.frame.names →
       persistGDS.setitem "value_field" (PyVal.str "geometry")
         = ({ persistGDS with
                frame := (persistGDS.frame.rename "value_field" "price").rename "geometry" "value_field",
                aliases := assocSet persistGDS.aliases "value_field" "geometry" }, none))
    ∧ ("value_field" ∉ persistGDS.frame.names →
       persistGDS.setitem "value_field" (PyVal.str "geometry")
         = ({ persistGDS with
                frame := persistGDS.frame.rename "geometry" "value_field",
                aliases := assocSet persistGDS.aliases "value_field" "geometry" }, none))
    ∧ (persistGDS.setitem "value_field" (PyVal.str "geometry")).1.frame.cols.map Prod.snd
        = persistGDS.frame.cols.map Prod.snd :=
  c2_rebind_restore_order persistGDS "value_field" "price" "geometry"
    (by decide) (by decide) (by decide)

/-! Claim C3. -/

/-- C3 (counterexample).  Replacing the frame of a dataset whose
persistent `value_field` is missing from the new frame does raise the
violation error naming the field, but the dataset's observable state has
already changed when the error is raised: its frame *is* the new frame
(the setter assigns and normalizes `_frame` before running the
persistent-field check), contradicting the claim's "the replacement does
not leave the dataset in a partially-updated state". -/
theorem c3_counterexample :
    (gdsFrameSet persistGDS (PyVal.frameV replacementFrame)).2
        = some (Err.geoInfo (persistentMsg "value_field"))
    ∧ (gdsFrameSet persistGDS (PyVal.frameV replacementFrame)).1.frame ≠ persistGDS.frame
    ∧ (gdsFrameSet persistGDS (PyVal.frameV replacementFrame)).1.frame = replacementFrame :=
  ⟨rfl, by decide, rfl⟩

/-- C3 (amended): replacing the frame with one in which some persistent
field resolves to neither its alias target nor its own name raises the
`GeoDataSetInfoError` naming the (first) missing persistent field — but
the dataset is left holding the already-normalized new frame: the setter
performs no rollback, so a failed replacement has still replaced the
frame (and the side-store copy of it). -/
theorem c3_violation_after_commit (s : GDS) (f g : Frame) (w : List Warn) (e : Err)
    (hconv : convertGeodataframe s.aliases s.crsArg s.toCrsArg (PyVal.frameV f)
        = Except.ok (g, w))
    (hviol : persistentViolation s.persistent s.aliases
        (if passThrough f then g.names else f.names) = some e)
    (he : e ≠ Err.keyError) :
    gdsFrameSet s (PyVal.frameV f) = (s.finalizeInto g, some e)
    ∧ (gdsFrameSet s (PyVal.frameV f)).1.frame = g
    ∧ ∃ col, col ∈ s.persistent
        ∧ col ∉ (if passThrough f then g.names else f.names)
        ∧ e = Err.geoInfo (persistentMsg col) := by
  have hmain : gdsFrameSet s (PyVal.frameV f) = (s.finalizeInto g, some e) := by
    simp only [gdsFrameSet, hconv]
    rw [hviol]
  exact ⟨hmain, by rw [hmain]; rfl, persistentViolation_names hviol he⟩

/-- C3 (witness): the amended theorem applied to `persistGDS` and
`replacementFrame` (which lacks both `price` and `value_field`). -/
theorem c3_violation_after_commit_witness :
    gdsFrameSet persistGDS (PyVal.frameV replacementFrame)
        = (persistGDS.finalizeInto replacementFrame,
           some (Err.geoInfo (persistentMsg "value_field")))
    ∧ (gdsFrameSet persistGDS (PyVal.frameV replacementFrame)).1.frame = replacementFrame
    ∧ ∃ col, col ∈ persistGDS.persistent
        ∧ col ∉ (if passThrough replacementFrame then replacementFrame.names
                 else replacementFrame.names)
        ∧ Err.geoInfo (persistentMsg "value_field") = Err.geoInfo (persistentMsg col) :=
  c3_violation_after_commit persistGDS replacementFrame replacementFrame []
    (Err.geoInfo (persistentMsg "value_field")) rfl rfl (by decide)

/-! Claim C4. -/

/-- C4.  The claim says assigning `("price", True)` marks the binding
persistent and assigning `("price", 5)` raises
`InvalidPersistenceFlagError`.  In the code the `isinstance(value,
tuple)` block sits inside `if value in self._frame.columns`, which a
tuple never satisfies, so both assignments silently take the side-store
path: no exception, no rename, no alias update, and `_persistent_fields`
unchanged — the persistence-marking feature is dead code (a code bug:
the spec describes the evident intent of lines 305-312). -/
theorem c4_persistence_flag_dead_code :
    (sampleGDS.setitem "value_field" (PyVal.tup (PyVal.str "price") (PyVal.boolV true))).2 = none
    ∧ ((sampleGDS.setitem "value_field" (PyVal.tup (PyVal.str "price") (PyVal.boolV true))).1).persistent
        = sampleGDS.persistent
    ∧ ((sampleGDS.setitem "value_field" (PyVal.tup (PyVal.str "price") (PyVal.boolV true))).1).frame
        = sampleGDS.frame
    ∧ ((sampleGDS.setitem "value_field" (PyVal.tup (PyVal.str "price") (PyVal.boolV true))).1).aliases
        = sampleGDS.aliases
    ∧ assocLookup ((sampleGDS.setitem "value_field"
          (PyVal.tup (PyVal.str "price") (PyVal.boolV true))).1).store "value_field"
        = some (PyVal.tup (PyVal.str "price") (PyVal.boolV true))
    ∧ (sampleGDS.setitem "value_field" (PyVal.tup (PyVal.str "price") (PyVal.intV 5))).2 = none
    ∧ assocLookup ((sampleGDS.setitem "value_field"
          (PyVal.tup (PyVal.str "price") (PyVal.intV 5))).1).store "value_field"
        = some (PyVal.tup (PyVal.str "price") (PyVal.intV 5)) :=
  ⟨rfl, rfl, rfl, rfl, rfl, rfl, rfl⟩

theorem assocLookup_overwrite {α : Type} {l : List (String × α)} {k : String} (g : α)
    (h : k ∈ l.map Prod.fst) :
    assocLookup (l.map fun c => if c.1 = k then (k, g) else c) k = some g := by
  induction l with
  | nil => simp at h
  | cons hd t ih =>
    obtain ⟨a, b⟩ := hd
    rw [show ((a, b) :: t).map (fun c => if c.1 = k then (k, g) else c)
          = (if a = k then (k, g) else (a, b))
              :: t.map (fun c => if c.1 = k then (k, g) else c) from rfl]
    by_cases hc : a = k
    · rw [if_pos hc]
      simp [assocLookup]
    · have ht : k ∈ t.map Prod.fst := by
        simp only [List.map_cons, List.mem_cons] at h
        rcases h with h1 | h1
        · exact absurd h1.symm hc
        · exact h1
      rw [if_neg hc]
      simp [assocLookup, hc, ih ht]

theorem assocLookup_append_single {α : Type} {l : List (String × α)} {k : String} (g : α)
    (h : k ∉ l.map Prod.fst) :
    assocLookup (l ++ [(k, g)]) k = some g := by
  induction l with
  | nil => simp [assocLookup]
  | cons hd t ih =>
    obtain ⟨a, b⟩ := hd
    have ha : ¬a = k := fun hx => h (by simp [hx])
    have ht : k ∉ t.map Prod.fst := fun hx => h (by simp [hx])
    simp [assocLookup, ha, ih ht]

theorem Frame.lookup_setGeometry (f : Frame) (g : List Cell) (c : Option String) :
    (f.setGeometry g c).lookup "geometry" = some g := by
  show assocLookup
      (if "geometry" ∈ f.names then
        f.cols.map fun c => if c.1 = "geometry" then ("geometry", g) else c
      else f.cols ++ [("geometry", g)]) "geometry" = some g
  by_cases h : "geometry" ∈ f.names
  · rw [if_pos h]
    exact assocLookup_overwrite g h
  · rw [if_neg h]
    exact assocLookup_append_single g h

theorem Frame.crs_setGeometry_some (f : Frame) (g : List Cell) (c : String) :
    (f.setGeometry g (some c)).crs = some c := rfl

theorem finalizeRename_geometry (f : Frame) :
    finalizeRename [("geometry", "geometry")] f = f := by
  show (if "geometry" ∈ f.names then f.rename "geometry" "geometry" else f) = f
  by_cases h : "geometry" ∈ f.names
  · rw [if_pos h, Frame.rename_self]
  · rw [if_neg h]

theorem coordsPopulated_iff (c1 c2 c3 : List Cell) :
    ((!c1.isEmpty || !c2.isEmpty || !c3.isEmpty) = true) ↔ (c1 ≠ [] ∨ c2 ≠ [] ∨ c3 ≠ []) := by
  simp [List.isEmpty_iff, or_assoc]

/-! Claim C5. -/

/-- C5 (counterexample).  The claim quantifies over *every* input frame,
but for a plain `DataFrame` carrying both a populated `geometry` column
and populated coordinate columns, `_convert_geodataframe` attempts the
coordinate construction *first* (lines 210-214): the resulting geometry
is recomputed from the coordinates — `[pt 1 2]`, not the original
`[pt 9 9]` — and no precedence warning is emitted. -/
theorem c5_counterexample :
    convertGeodataframe [("geometry", "geometry")] (some "EPSG:4326") none
        (PyVal.frameV dfBothSignals)
      = Except.ok
          ({ cols := [("coord_field1", [Cell.num 1]), ("coord_field2", [Cell.num 2]),
                      ("geometry", [Cell.pt 1 2])],
             crs := some "EPSG:4326", isGeo := true }, [])
    ∧ dfBothSignals.lookup "geometry" = some [Cell.pt 9 9]
    ∧ ([Cell.pt 1 2] : List Cell) ≠ [Cell.pt 9 9] :=
  ⟨rfl, rfl, by decide⟩

/-- C5 (amended): for a `GeoDataFrame` input, normalization checks the
geometry column first: when the input exposes a non-empty `geometry`
column that geometry is used directly (the output's `geometry` column is
the input's, not recomputed), and the non-fatal precedence warning is
emitted exactly when some coordinate column is also populated.  (For a
plain `DataFrame` input the code instead attempts coordinate
construction first — see the counterexample.  CRS handling is orthogonal
and covered by C7; here no `crs`/`to_crs` field is set.) -/
theorem c5_geometry_first (f : Frame) (g : List Cell)
    (hgeo : f.isGeo = true)
    (hg : f.lookup "geometry" = some g)
    (hne : g ≠ []) :
    ∃ f2 w, convertGeodataframe [("geometry", "geometry")] none none (PyVal.frameV f)
        = Except.ok (f2, w)
      ∧ f2.lookup "geometry" = some g
      ∧ (Warn.geomPrecedence ∈ w ↔
          ((coordFields f).1 ≠ [] ∨ (coordFields f).2.1 ≠ [] ∨ (coordFields f).2.2 ≠ [])) := by
  rcases hcf : coordFields f with ⟨c1, c2, c3⟩
  have hmem : "geometry" ∈ f.names := Frame.mem_names_of_lookup hg
  have hfg : geodataframe_from_geometry f none none
      = Except.ok { f with isGeo := true, crs := f.crs } := by
    simp only [geodataframe_from_geometry]
    rw [if_pos hmem]
  have hge : g.isEmpty = false := by
    cases g with
    | nil => exact absurd rfl hne
    | cons a t => rfl
  have hfe : ({ f with isGeo := true, crs := f.crs } : Frame).isEmpty = false :=
    Frame.isEmpty_false_of_lookup hg hne
  have hg' : ({ f with isGeo := true, crs := f.crs } : Frame).lookup "geometry" = some g := hg
  by_cases hcond : (!c1.isEmpty || !c2.isEmpty || !c3.isEmpty) = true
  · cases hcrs : f.crs with
    | none =>
      have hcrs' : ({ f with isGeo := true, crs := f.crs } : Frame).crs = none := hcrs
      refine ⟨{ f with isGeo := true, crs := f.crs }, [Warn.geomPrecedence, Warn.noCrs], ?_, hg', ?_⟩
      · simp [convertGeodataframe, hcf, hgeo, hg, hge, hcond, hfg, hfe, hcrs, hcrs',
              finalizeRename_geometry]
        exact Frame.isEmpty_false_of_lookup hg hne
      · exact iff_of_true (by simp) ((coordsPopulated_iff c1 c2 c3).mp hcond)
    | some c =>
      have hcrs' : ({ f with isGeo := true, crs := f.crs } : Frame).crs = some c := hcrs
      refine ⟨{ f with isGeo := true, crs := f.crs }, [Warn.geomPrecedence], ?_, hg', ?_⟩
      · simp [convertGeodataframe, hcf, hgeo, hg, hge, hcond, hfg, hfe, hcrs, hcrs',
              finalizeRename_geometry]
        exact Frame.isEmpty_false_of_lookup hg hne
      · exact iff_of_true (by simp) ((coordsPopulated_iff c1 c2 c3).mp hcond)
  · cases hcrs : f.crs with
    | none =>
      have hcrs' : ({ f with isGeo := true, crs := f.crs } : Frame).crs = none := hcrs
      refine ⟨{ f with isGeo := true, crs := f.crs }, [Warn.noCrs], ?_, hg', ?_⟩
      · simp [convertGeodataframe, hcf, hgeo, hg, hge, hcond, hfg, hfe, hcrs, hcrs',
              finalizeRename_geometry]
        exact Frame.isEmpty_false_of_lookup hg hne
      · exact iff_of_false (by simp) (fun hx => hcond ((coordsPopulated_iff c1 c2 c3).mpr hx))
    | some c =>
      have hcrs' : ({ f with isGeo := true, crs := f.crs } : Frame).crs = some c := hcrs
      refine ⟨{ f with isGeo := true, crs := f.crs }, [], ?_, hg', ?_⟩
      · simp [convertGeodataframe, hcf, hgeo, hg, hge, hcond, hfg, hfe, hcrs, hcrs',
              finalizeRename_geometry]
        exact Frame.isEmpty_false_of_lookup hg hne
      · exact iff_of_false (by simp) (fun hx => hcond ((coordsPopulated_iff c1 c2 c3).mpr hx))

/-- C5 (witness): the amended theorem applied to a `GeoDataFrame`
carrying both geometry and coordinate columns. -/
theorem c5_geometry_first_witness :
    ∃ f2 w, convertGeodataframe [("geometry", "geometry")] none none (PyVal.frameV geoBothSignals)
        = Except.ok (f2, w)
      ∧ f2.lookup "geometry" = some [Cell.pt 9 9]
      ∧ (Warn.geomPrecedence ∈ w ↔
          ((coordFields geoBothSignals).1 ≠ [] ∨ (coordFields geoBothSignals).2.1 ≠ []
            ∨ (coordFields geoBothSignals).2.2 ≠ [])) :=
  c5_geometry_first geoBothSignals [Cell.pt 9 9] rfl rfl (by decide)

/-! Claim C6. -/

/-- C6 (counterexample).  A non-empty `GeoDataFrame` exposing neither a
geometry column nor coordinate columns does *not* raise `FrameShapeError`
(`GeoDataSetFrameError`): it falls through both branches of the
`GeoDataFrame` arm and normalization succeeds, returning the frame
untouched. -/
theorem c6_counterexample :
    convertGeodataframe [("geometry", "geometry")] none none (PyVal.frameV geoNoSignals)
      = Except.ok (geoNoSignals, []) := rfl

/-- C6 (amended): a non-empty `GeoDataFrame` input with an empty-or-absent
geometry column and insufficient coordinate columns passes through
normalization without any error — only the CRS post-steps and the alias
finalize rename apply, preserving the column data.  (`GeoDataSetFrameError`
is raised only when the input is not a frame at all, and a plain
`DataFrame` without signals propagates the geopandas missing-geometry
error instead.) -/
theorem c6_no_signal_passthrough (al : List (String × String)) (crs to_crs : Option String)
    (f : Frame)
    (hgeo : f.isGeo = true)
    (hg : (f.lookup "geometry").getD [] = [])
    (hc : (coordFields f).1 = [] ∨ (coordFields f).2.1 = [])
    (hne : f.isEmpty = false) :
    ∃ f2 w, convertGeodataframe al crs to_crs (PyVal.frameV f) = Except.ok (f2, w)
      ∧ f2.cols.map Prod.snd = f.cols.map Prod.snd := by
  rcases hcf : coordFields f with ⟨c1, c2, c3⟩
  rw [hcf] at hc
  replace hc : c1 = [] ∨ c2 = [] := hc
  have hcond : ((!c1.isEmpty && !c2.isEmpty)
      || (!c1.isEmpty && !c2.isEmpty && !c3.isEmpty)) = false := by
    rcases hc with h | h <;> subst h <;> simp
  cases hcrs : f.crs with
  | none =>
    refine ⟨finalizeRename al f, [Warn.noCrs], ?_, map_snd_finalizeRename al f⟩
    simp [convertGeodataframe, hcf, hgeo, hg, hcond, hne, hcrs]
  | some c =>
    cases to_crs with
    | none =>
      refine ⟨finalizeRename al f, [], ?_, map_snd_finalizeRename al f⟩
      simp [convertGeodataframe, hcf, hgeo, hg, hcond, hne, hcrs]
    | some t =>
      refine ⟨finalizeRename al { f with crs := some t }, [], ?_, ?_⟩
      · simp [convertGeodataframe, hcf, hgeo, hg, hcond, hne, hcrs, Frame.toCrsF]
      · rw [map_snd_finalizeRename]

/-- C6 (witness): the amended theorem applied to `geoNoSignals`. -/
theorem c6_no_signal_passthrough_witness :
    ∃ f2 w, convertGeodataframe [("geometry", "geometry")] none none (PyVal.frameV geoNoSignals)
        = Except.ok (f2, w)
      ∧ f2.cols.map Prod.snd = geoNoSignals.cols.map Prod.snd :=
  c6_no_signal_passthrough [("geometry", "geometry")] none none geoNoSignals
    rfl rfl (by decide) rfl

/-! Claim C7. -/

/-- C7 (counterexample).  In the normalization pipeline, requesting
`to_crs` on a geometry-column frame with no starting CRS does *not* fail
with the CRS-origin-required error: `_convert_geodataframe` never passes
`to_crs` to `geodataframe_from_geometry` (line 200), and the post-step
(lines 222-225) merely emits the missing-CRS warning and skips the
reprojection, returning a frame that still has no CRS. -/
theorem c7_counterexample :
    convertGeodataframe [("geometry", "geometry")] none (some "EPSG:3857") (PyVal.frameV geoNoCrs)
      = Except.ok (geoNoCrs, [Warn.noCrs])
    ∧ geoNoCrs.crs = none :=
  ⟨rfl, rfl⟩

/-- C7 (amended): the helper `geodataframe_from_geometry` itself, called
with a target CRS and no starting CRS, raises the CRS-origin-required
`GeoDataSetInfoError`; but the pipeline never forwards `to_crs` to it —
there a missing CRS only warns (see the counterexample).  The second half
of the claim holds: normalizing a coordinate frame with a starting CRS
and a target CRS succeeds without warnings and the resulting frame
carries the target CRS. -/
theorem c7_crs_handling (df : Frame) (t : String)
    (hge : "geometry" ∈ df.names)
    (al : List (String × String)) (f : Frame) (c u : String) (d1 d2 : List Cell)
    (hfg : f.isGeo = false)
    (h1 : f.lookup "coord_field1" = some d1) (hd1 : d1 ≠ [])
    (h2 : f.lookup "coord_field2" = some d2) (hd2 : d2 ≠ [])
    (h3 : f.lookup "coord_field3" = none) :
    geodataframe_from_geometry df none (some t)
        = Except.error (Err.geoInfo "A beginning crs must be given to transform to a new crs!")
    ∧ ∃ f2, convertGeodataframe al (some c) (some u) (PyVal.frameV f) = Except.ok (f2, [])
        ∧ f2.crs = some u := by
  constructor
  · simp [geodataframe_from_geometry, hge]
  · have hcf : coordFields f = (d1, d2, []) := by
      simp [coordFields, h1, h2, h3]
    have hpts : pointsFromXY d1 d2 ≠ [] := by
      rcases List.exists_cons_of_ne_nil hd1 with ⟨x, xs, rfl⟩
      rcases List.exists_cons_of_ne_nil hd2 with ⟨y, ys, rfl⟩
      simp [pointsFromXY]
    have hfromc : geodataframe_from_coordinates f false (some c) none
        = Except.ok (f.setGeometry (pointsFromXY d1 d2) (some c)) := by
      simp [geodataframe_from_coordinates, h1, h2]
    have hemp : (f.setGeometry (pointsFromXY d1 d2) (some c)).isEmpty = false :=
      Frame.isEmpty_false_of_lookup (Frame.lookup_setGeometry f _ _) hpts
    have hcrsF : (f.setGeometry (pointsFromXY d1 d2) (some c)).crs = some c := rfl
    refine ⟨finalizeRename al
        { f.setGeometry (pointsFromXY d1 d2) (some c) with crs := some u }, ?_, ?_⟩
    · simp [convertGeodataframe, hcf, hfg, hfromc, hemp, hcrsF, Frame.toCrsF]
    · rw [crs_finalizeRename]

/-- C7 (witness): the amended theorem applied to `geoNoCrs` (helper part)
and `dfCoords` with starting CRS `EPSG:4326` and target `EPSG:3857`
(pipeline part). -/
theorem c7_crs_handling_witness :
    geodataframe_from_geometry geoNoCrs none (some "EPSG:3857")
        = Except.error (Err.geoInfo "A beginning crs must be given to transform to a new crs!")
    ∧ ∃ f2, convertGeodataframe [("geometry", "geometry")] (some "EPSG:4326") (some "EPSG:3857")
          (PyVal.frameV dfCoords) = Except.ok (f2, [])
        ∧ f2.crs = some "EPSG:3857" :=
  c7_crs_handling geoNoCrs "EPSG:3857" (by decide) [("geometry", "geometry")] dfCoords
    "EPSG:4326" "EPSG:3857" [Cell.num 1] [Cell.num 2] rfl rfl (by decide) rfl (by decide) rfl

/-! Claim C8. -/

/-- C8 (counterexample).  A dataset constructed from a frame alone —
zero extra fields, empty side-store apart from the bookkeeping `frame`
entry — has `isvalid() = True`, contradicting the claim's "returns false
for a frame-only dataset with zero extra fields". -/
theorem c8_counterexample :
    gdsInit (PyVal.frameV sampleFrame) none [] = Except.ok sampleGDS
    ∧ GDS.isvalid sampleGDS = true :=
  ⟨rfl, rfl⟩

/-- C8 (amended): `isvalid` is true exactly when the frame is non-empty.
The `if not bool(self.__dict__)` clause is vacuous: `__init__` always
leaves the four bookkeeping slots (`_aliases`, `_persistent_fields`,
`_store`, `_frame`) in the instance `__dict__`, so that test never
fails, and carrying an additional field is *not* required. -/
theorem c8_isvalid_iff_frame_nonempty (s : GDS) : s.isvalid = !s.frame.isEmpty := by
  unfold GDS.isvalid
  cases h : s.frame.isEmpty with
  | true => simp [h]
  | false => simp [h, bookkeepingKeys]

/-! Claim C9. -/

/-- C9.  Constructing a `GeoDataSet` with a *non-empty* `fields` mapping
never routes anything through assignment: line 154 rebinds `fields` to
`fields.copy().update(kwargs)`, which is `None` (`dict.update` returns
`None`), and line 155's `self._convert_fields(**fields)` then raises
`TypeError` — construction fails before any field assignment or
normalization, for every frame, mapping and keyword set (a code bug: the
docstring and the kwargs-only path show the intent). -/
theorem c9_fields_mapping_typeerror (f : Frame) (l : List (String × PyVal))
    (kwargs : List (String × PyVal)) (h : l ≠ []) :
    gdsInit (PyVal.frameV f) (some l) kwargs = Except.error Err.typeError := by
  obtain ⟨a, t, rfl⟩ := List.exists_cons_of_ne_nil h
  rfl

/-- C9 (witness): the bug theorem applied to `sampleFrame` with the
mapping `{'value_field': 'price'}`. -/
theorem c9_fields_mapping_typeerror_witness :
    [("value_field", PyVal.str "price")] ≠ ([] : List (String × PyVal))
    ∧ gdsInit (PyVal.frameV sampleFrame) (some [("value_field", PyVal.str "price")]) []
        = Except.error Err.typeError :=
  ⟨by decide,
   c9_fields_mapping_typeerror sampleFrame [("value_field", PyVal.str "price")] [] (by decide)⟩

/-! Claim C10. -/

/-- C10: deleting a side-stored key removes it from `_store` — membership,
length and iteration no longer see it — but a subsequent lookup still
returns the previously stored value, because `__setitem__` also wrote it
into the instance `__dict__` and `__delitem__` (line 327) only touches
`_store`, while `__getitem__` falls back to `__dict__`. -/
theorem c10_delete_keeps_dict (s : GDS) (k : String) (val : PyVal)
    (hstore : assocLookup s.store k = some val)
    (hnd : (s.store.map Prod.fst).Nodup)
    (hext : assocLookup s.extras k = some val)
    (hcol : s.frame.lookup k = none)
    (hfr : k ≠ "frame")
    (hbk : k ∉ bookkeepingKeys) :
    (s.delitem k).2 = none
    ∧ GDS.containsStore (s.delitem k).1 k = false
    ∧ GDS.lenStore (s.delitem k).1 + 1 = GDS.lenStore s
    ∧ k ∉ (GDS.iterStore (s.delitem k).1).map Prod.fst
    ∧ GDS.getitem (s.delitem k).1 k = Except.ok val := by
  have hmem : k ∈ s.store.map Prod.fst := mem_keys_of_assocLookup hstore
  have hdel : s.delitem k = ({ s with store := assocErase s.store k }, none) := by
    unfold GDS.delitem
    rw [if_pos hmem]
  have hkeys : k ∉ (assocErase s.store k).map Prod.fst := not_mem_keys_assocErase hnd
  refine ⟨by rw [hdel], ?_, ?_, ?_, ?_⟩
  · rw [hdel]
    exact any_fst_eq_false_of_not_mem hkeys
  · rw [hdel]
    exact length_assocErase hmem
  · rw [hdel]
    exact hkeys
  · rw [hdel]
    unfold GDS.getitem
    rw [if_neg hfr]
    show (match s.frame.lookup k with
          | some d => Except.ok (PyVal.colV d)
          | none =>
            if k ∈ bookkeepingKeys then Except.ok PyVal.internalV
            else
              match assocLookup s.extras k with
              | some v => Except.ok v
              | none => Except.error Err.keyError) = Except.ok val
    rw [hcol]
    show (if k ∈ bookkeepingKeys then Except.ok PyVal.internalV
          else
            match assocLookup s.extras k with
            | some v => Except.ok v
            | none => Except.error Err.keyError) = Except.ok val
    rw [if_neg hbk, hext]

/-- C10 (witness): the theorem applied to `notedGDS` and its side-stored
key `note`. -/
theorem c10_delete_keeps_dict_witness :
    (notedGDS.delitem "note").2 = none
    ∧ GDS.containsStore (notedGDS.delitem "note").1 "note" = false
    ∧ GDS.lenStore (notedGDS.delitem "note").1 + 1 = GDS.lenStore notedGDS
    ∧ "note" ∉ (GDS.iterStore (notedGDS.delitem "note").1).map Prod.fst
    ∧ GDS.getitem (notedGDS.delitem "note").1 "note" = Except.ok (PyVal.str "hello") :=
  c10_delete_keeps_dict notedGDS "note" (PyVal.str "hello") rfl (by decide) rfl rfl
    (by decide) (by decide)

end PythonTools
